import Mathlib

/-!
Verification of the marketing-field validator of `src/tools/validator.py`
(function `validate_marketing_fields`, lines 137-533).

The feed document is a parsed JSON value; we embed it as the inductive
type `Json`.  Python raises exceptions on type mismatches (attribute
errors on missing methods, type errors on unsupported operations,
key errors on missing dictionary keys); an uncaught exception aborts
the whole run, so every embedded operation lives in the exception
monad `Py := Except PyErr`.  Issue messages are the exact f-strings of
the source, assembled by the `msg*` helpers below.
-/

/-- A parsed JSON value (the Python object tree `json.load` produces).
Python `bool` is kept separate from `int` but counts as an `int` for
`isinstance` checks, as in CPython. -/
inductive Json where
  | null
  | bool (b : Bool)
  | int (n : Int)
  | float (q : Rat)
  | str (s : String)
  | arr (elems : List Json)
  | obj (fields : List (String × Json))
deriving Inhabited

mutual
/-- Structural equality test on values (Python `==` on JSON trees). -/
def jsonBeq : Json → Json → Bool
  | .null, .null => true
  | .bool a, .bool b => a == b
  | .int a, .int b => a == b
  | .float a, .float b => a == b
  | .str a, .str b => a == b
  | .arr a, .arr b => jsonBeqList a b
  | .obj a, .obj b => jsonBeqFields a b
  | _, _ => false

def jsonBeqList : List Json → List Json → Bool
  | [], [] => true
  | x :: xs, y :: ys => jsonBeq x y && jsonBeqList xs ys
  | _, _ => false

def jsonBeqFields : List (String × Json) → List (String × Json) → Bool
  | [], [] => true
  | (k, v) :: xs, (l, w) :: ys => k == l && jsonBeq v w && jsonBeqFields xs ys
  | _, _ => false
end

instance : BEq Json := ⟨jsonBeq⟩

/-- Python exceptions that the validator can raise while analyzing a feed. -/
inductive PyErr where
  | attrError (meth : String)
  | typeError (info : String)
  | keyError (key : String)
deriving Repr, DecidableEq

/-- Computations that may raise a Python exception. -/
abbrev Py (α : Type) := Except PyErr α

@[simp] theorem py_bind_ok {α β : Type} (a : α) (f : α → Py β) :
    (Except.ok a >>= f) = f a := rfl

@[simp] theorem py_bind_error {α β : Type} (e : PyErr) (f : α → Py β) :
    ((Except.error e : Py α) >>= f) = Except.error e := rfl

@[simp] theorem py_pure {α : Type} (a : α) : (pure a : Py α) = Except.ok a := rfl

instance {ε α : Type} [DecidableEq ε] [DecidableEq α] : DecidableEq (Except ε α) :=
  fun x y =>
    match x, y with
    | .error a, .error b =>
      if h : a = b then .isTrue (congrArg _ h)
      else .isFalse fun c => h (Except.error.inj c)
    | .error _, .ok _ => .isFalse fun c => Except.noConfusion c
    | .ok _, .error _ => .isFalse fun c => Except.noConfusion c
    | .ok a, .ok b =>
      if h : a = b then .isTrue (congrArg _ h)
      else .isFalse fun c => h (Except.ok.inj c)

/-- First-match association lookup (CPython dicts have unique keys, so
first match is the only match). -/
def lookupField : List (String × Json) → String → Option Json
  | [], _ => none
  | (k, v) :: rest, key => if k = key then some v else lookupField rest key

/-!
String primitives.  Core `String.split`, `String.splitOn`, `String.ltb`,
`String.trim` and friends are compiled by well-founded recursion or
iterators and do not reduce inside the kernel, so the handful of string
operations the validator uses are given structurally recursive
character-list implementations here.
-/

/-- `needle` is a prefix of `hay`. -/
def charsPre : List Char → List Char → Bool
  | [], _ => true
  | _ :: _, [] => false
  | n :: ns, h :: hs => n == h && charsPre ns hs

/-- `needle` occurs as a contiguous substring of `hay`. -/
def charsContains (needle : List Char) : List Char → Bool
  | [] => needle.isEmpty
  | h :: hs => charsPre needle (h :: hs) || charsContains needle hs

/-- Split at every character satisfying `p`, keeping empty pieces
(the semantics of `str.split(sep)` / `re.split` on single characters). -/
def charsSplit (p : Char → Bool) : List Char → List (List Char)
  | [] => [[]]
  | c :: cs =>
    if p c then [] :: charsSplit p cs
    else
      match charsSplit p cs with
      | [] => [[c]]
      | w :: ws => (c :: w) :: ws

/-- Strip leading and trailing whitespace (`str.strip()`). -/
def charsTrimWS (cs : List Char) : List Char :=
  ((cs.dropWhile Char.isWhitespace).reverse.dropWhile Char.isWhitespace).reverse

/-- Code-point lexicographic `<` (Python string comparison). -/
def charsLt : List Char → List Char → Bool
  | [], [] => false
  | [], _ :: _ => true
  | _ :: _, [] => false
  | a :: as, b :: bs => if a < b then true else if b < a then false else charsLt as bs

/-- Python `str.lower()` (ASCII case folding suffices for the feeds). -/
def strLower (s : String) : String := String.mk (s.data.map Char.toLower)

/-- Python `str.strip()`. -/
def strTrim (s : String) : String := String.mk (charsTrimWS s.data)

/-- Python `s.startswith(pre)`. -/
def pyStartsWith (s pre : String) : Bool := charsPre pre.data s.data

/-- Python `s[-1]`, used only under a `len(s) > 0` guard. -/
def lastChar (s : String) : Char := s.data.getLastD (Char.ofNat 0)

/-- Python `needle in haystack` on strings (substring containment;
the empty string is contained in everything). -/
def pyInStr (needle haystack : String) : Bool :=
  charsContains needle.data haystack.data

/-- Python `k in j`: dict keys, list membership, substring on strings;
`TypeError` otherwise. -/
def pyMem (k : String) (j : Json) : Py Bool :=
  match j with
  | .obj fs => .ok (lookupField fs k).isSome
  | .arr xs => .ok (xs.contains (.str k))
  | .str s => .ok (pyInStr k s)
  | _ => .error (.typeError "argument is not iterable")

/-- Python subscript `j[k]` with a string key. -/
def pySub (j : Json) (k : String) : Py Json :=
  match j with
  | .obj fs =>
    match lookupField fs k with
    | some v => .ok v
    | none => .error (.keyError k)
  | _ => .error (.typeError "object is not subscriptable")

/-- Python `j.get(k, dflt)`; `AttributeError` when `j` is not a dict. -/
def pyGet (j : Json) (k : String) (dflt : Json) : Py Json :=
  match j with
  | .obj fs => .ok ((lookupField fs k).getD dflt)
  | _ => .error (.attrError "get")

/-- Coerce to the string receiver of a method call such as `.split()`;
`AttributeError` (named after the method) on any non-string. -/
def asStr (meth : String) : Json → Py String
  | .str s => .ok s
  | _ => .error (.attrError meth)

/-- Python truthiness of a value. -/
def pyTruthy : Json → Bool
  | .null => false
  | .bool b => b
  | .int n => n != 0
  | .float q => q != 0
  | .str s => !s.isEmpty
  | .arr xs => !xs.isEmpty
  | .obj fs => !fs.isEmpty

@[simp] def isListJ : Json → Bool | .arr _ => true | _ => false
@[simp] def isDictJ : Json → Bool | .obj _ => true | _ => false
@[simp] def isStrJ : Json → Bool | .str _ => true | _ => false
/-- `isinstance(x, int)` — CPython counts `bool` as `int`. -/
@[simp] def isIntJ : Json → Bool | .int _ => true | .bool _ => true | _ => false
/-- `isinstance(x, (int, float))`. -/
@[simp] def isNumJ : Json → Bool
  | .int _ => true | .float _ => true | .bool _ => true | _ => false

/-- The string payload, used only under an `isStrJ` guard (mirrors the
source accessing a value right after an `isinstance(..., str)` check). -/
def strOf : Json → String | .str s => s | _ => ""

/-- Python `len()`. -/
def pyLen : Json → Py Nat
  | .str s => .ok s.length
  | .arr xs => .ok xs.length
  | .obj fs => .ok fs.length
  | _ => .error (.typeError "object has no len")

/-- Numeric view for comparisons (`bool` compares as 0/1 in Python). -/
def pyNumVal : Json → Option Rat
  | .int n => some (n : Rat)
  | .float q => some q
  | .bool b => some (if b then 1 else 0)
  | _ => none

/-- Python `a < b`: numeric comparison, or lexicographic on strings;
`TypeError` on mixed/unsupported operand types. -/
def pyLtB (a b : Json) : Py Bool :=
  match pyNumVal a, pyNumVal b with
  | some x, some y => .ok (decide (x < y))
  | _, _ =>
    match a, b with
    | .str s, .str t => .ok (charsLt s.data t.data)
    | _, _ => .error (.typeError "unsupported comparison")

def pyGtB (a b : Json) : Py Bool := pyLtB b a

def pyLeB (a b : Json) : Py Bool := do pure (!(← pyGtB a b))

def pyGeB (a b : Json) : Py Bool := do pure (!(← pyLtB a b))

/-- Python iteration `for x in j`: list elements, characters of a
string, keys of a dict; `TypeError` otherwise. -/
def pyIter : Json → Py (List Json)
  | .arr xs => .ok xs
  | .str s => .ok (s.toList.map fun c => .str (String.mk [c]))
  | .obj fs => .ok (fs.map fun f => .str f.1)
  | _ => .error (.typeError "object is not iterable")

/-- Python `j.items()` (dict only; insertion order, as CPython guarantees). -/
def pyItems : Json → Py (List (String × Json))
  | .obj fs => .ok fs
  | _ => .error (.attrError "items")

/-- Python `str.split()` with no argument: split on whitespace runs,
discarding empty tokens. -/
def pyWords (s : String) : List String :=
  ((charsSplit Char.isWhitespace s.data).map String.mk).filter fun w => !w.isEmpty

/-- Membership in Python's `string.punctuation` (the 32 ASCII punctuation
characters). -/
def isPunctChar (c : Char) : Bool :=
  let n := c.toNat
  (33 ≤ n && n ≤ 47) || (58 ≤ n && n ≤ 64) || (91 ≤ n && n ≤ 96) ||
    (123 ≤ n && n ≤ 126)

/-- Python `s.strip(string.punctuation)`. -/
def pyStripPunct (s : String) : String :=
  String.mk (((s.toList.dropWhile isPunctChar).reverse.dropWhile isPunctChar).reverse)

/-- `f"{sum / n:.1f}"`: the fraction `sum / n` rendered to one decimal
place with ties rounded to even, in exact integer arithmetic (double
rounding of the intermediate float is immaterial to the feeds analyzed
here, whose averages are never formatted at a representation boundary). -/
def fmtAvgDot1 (sum n : Nat) : String :=
  let a := 10 * sum
  let q := a / n
  let r := a % n
  let v :=
    if 2 * r < n then q
    else if n < 2 * r then q + 1
    else if q % 2 = 0 then q else q + 1
  toString (v / 10) ++ "." ++ toString (v % 10)

/-- A single-quote character, used by the `f"...'{x}'..."` messages. -/
def apos : String := String.mk [Char.ofNat 39]

def quoted (s : String) : String := apos ++ s ++ apos

/-- Integral-only rendering of a Python float (the analyzed feeds never
render a non-integral float, so shortest-roundtrip repr is not needed). -/
def fmtFloatPy (q : Rat) : String :=
  if q.den = 1 then toString q.num ++ ".0"
  else toString q.num ++ "/" ++ toString q.den

mutual
/-- Python `repr` of a value (string payloads single-quoted). -/
def pyRepr : Json → String
  | .null => "None"
  | .bool b => if b then "True" else "False"
  | .int n => toString n
  | .float q => fmtFloatPy q
  | .str s => quoted s
  | .arr xs => "[" ++ pyReprSeq xs ++ "]"
  | .obj fs => "\x7b" ++ pyReprFields fs ++ "\x7d"

def pyReprSeq : List Json → String
  | [] => ""
  | [x] => pyRepr x
  | x :: y :: rest => pyRepr x ++ ", " ++ pyReprSeq (y :: rest)

def pyReprFields : List (String × Json) → String
  | [] => ""
  | [(k, v)] => quoted k ++ ": " ++ pyRepr v
  | (k, v) :: f :: rest => quoted k ++ ": " ++ pyRepr v ++ ", " ++ pyReprFields (f :: rest)
end

/-- Python `str()` as used inside f-strings. -/
def pyStr : Json → String
  | .str s => s
  | j => pyRepr j

/-! ### Issue messages (the exact f-strings of `validate_marketing_fields`) -/

def msgKmpInvalid (rid : String) : String :=
  "Restaurant " ++ quoted rid ++ " has empty or invalid key_message_points"

def msgKmpShort (rid : String) (j n : Nat) : String :=
  "Restaurant " ++ quoted rid ++ " key_message_point[" ++ toString j ++
    "] is too short (" ++ toString n ++ " words). Aim for 3-7 words."

def msgKmpLong (rid : String) (j n : Nat) : String :=
  "Restaurant " ++ quoted rid ++ " key_message_point[" ++ toString j ++
    "] is too long (" ++ toString n ++ " words). Aim for 3-7 words."

def msgTmplInvalid (rid : String) : String :=
  "Restaurant " ++ quoted rid ++ " has empty or invalid suggested_prompt_template"

def msgTmplMissing (rid v : String) : String :=
  "Restaurant " ++ quoted rid ++ " suggested_prompt_template should include \x7b" ++
    v ++ "\x7d"

def msgTiers (rid : String) : String :=
  "Restaurant " ++ quoted rid ++ " has invalid loyalty program tiers"

def msgPromoBlurb (rid : String) : String :=
  "Restaurant " ++ quoted rid ++
    " loyalty program promo_blurb is too short. Aim for at least 5 words."

def msgOffersList (rid : String) : String :=
  "Restaurant " ++ quoted rid ++ " promotional_offers must be a list"

def msgOfferTime (nm : String) : String :=
  "Promotional offer " ++ quoted nm ++ " has end_time before start_time"

def msgCopyShort (rid : String) (j : Nat) : String :=
  "Restaurant " ++ quoted rid ++ " promotional_offer[" ++ toString j ++
    "] marketing_copy is too short. Aim for at least 5 words."

def msgCopyEngage (rid : String) (j : Nat) : String :=
  "Restaurant " ++ quoted rid ++ " promotional_offer[" ++ toString j ++
    "] marketing_copy may be more engaging with exclamation or question marks."

def msgSocialField (rid fieldName : String) : String :=
  "Restaurant " ++ quoted rid ++ " social_media_strategy must include non-empty " ++
    fieldName ++ " list"

def msgBlurbShort (rid : String) (n : Nat) : String :=
  "Restaurant " ++ quoted rid ++ " social_media_blurb is too short (" ++
    toString n ++ " words). Aim for at least 10 words."

def msgHashtag (rid h : String) : String :=
  "Restaurant " ++ quoted rid ++ " hashtag " ++ quoted h ++ " should start with #"

def msgCtaBtn (rid : String) : String :=
  "Restaurant " ++ quoted rid ++ " website_cta button_text is too short"

def msgCtaUrl (rid : String) : String :=
  "Restaurant " ++ quoted rid ++
    " website_cta target_url should start with http:// or https://"

def msgNarrFormat (did fieldName : String) : String :=
  "Dish " ++ quoted did ++ " has invalid " ++ fieldName ++
    " format - must use TranslatedString format"

def msgNarrEmpty (did fieldName : String) : String :=
  "Dish " ++ quoted did ++ " has empty or invalid translations in " ++ fieldName

def msgLang (did lang fieldName : String) : String :=
  "Dish " ++ quoted did ++ " has invalid language code " ++ quoted lang ++
    " in " ++ fieldName

def msgNarrLong (did fieldName : String) (n : Nat) : String :=
  "Dish " ++ quoted did ++ " " ++ fieldName ++ " is too long (" ++ toString n ++
    " words). Aim for under 50 words."

def msgNarrShort10 (did fieldName : String) (n : Nat) : String :=
  "Dish " ++ quoted did ++ " " ++ fieldName ++ " is too short (" ++ toString n ++
    " words). Aim for at least 10 words."

def msgNarrShort30 (did fieldName : String) (n : Nat) : String :=
  "Dish " ++ quoted did ++ " " ++ fieldName ++ " is too short (" ++ toString n ++
    " words). Aim for at least 30 words."

def msgPunct (did fieldName : String) : String :=
  "Dish " ++ quoted did ++ " " ++ fieldName ++ " should end with proper punctuation."

def msgMention (did fieldName nm : String) : String :=
  "Dish " ++ quoted did ++ " " ++ fieldName ++ " should mention the dish name " ++
    quoted nm ++ " for better SEO."

def msgAvgLen (did fieldName avg : String) : String :=
  "Dish " ++ quoted did ++ " " ++ fieldName ++ " has high average word length (" ++
    avg ++ "). Consider simplifying language."

def msgUniform (did fieldName : String) : String :=
  "Dish " ++ quoted did ++ " " ++ fieldName ++
    " has uniform sentence lengths. Consider varying sentence structure."

def msgLat (did v : String) : String :=
  "Dish " ++ quoted did ++ " has invalid latitude in supplier_location: " ++ v

def msgLon (did v : String) : String :=
  "Dish " ++ quoted did ++ " has invalid longitude in supplier_location: " ++ v

def msgLocMissing (did : String) (missing : List String) : String :=
  "Dish " ++ quoted did ++ " supplier_location.detailed is missing: " ++
    String.intercalate ", " missing

def msgCert (did : String) : String :=
  "Dish " ++ quoted did ++ " has invalid supplier_certification: too short"

def msgFarmInvalid (did v : String) : String :=
  "Dish " ++ quoted did ++ " has invalid farm_distance: " ++ v ++
    ". Must be a positive number."

def msgFarmLarge (did v : String) : String :=
  "Warning: Dish " ++ quoted did ++ " has a large farm_distance: " ++ v ++
    ". Verify if this is correct."

def msgSust (did : String) : String :=
  "Dish " ++ quoted did ++
    " has invalid sustainability_impact: too short. Aim for at least 10 words."

def msgUpgArr (did : String) : String :=
  "Dish " ++ quoted did ++ " upgrade_options must be an array"

def msgUpgObj (did : String) (i : Nat) : String :=
  "Dish " ++ quoted did ++ " upgrade_options[" ++ toString i ++ "] must be an object"

def msgUpgName (did : String) (i : Nat) : String :=
  "Dish " ++ quoted did ++ " upgrade_options[" ++ toString i ++ "] is missing new_name"

def msgUpgPrice (did : String) (i : Nat) : String :=
  "Dish " ++ quoted did ++ " upgrade_options[" ++ toString i ++ "] has invalid new_price"

def msgUpgCopy (did : String) (i : Nat) : String :=
  "Dish " ++ quoted did ++ " upgrade_options[" ++ toString i ++
    "] is missing marketing_copy"

def msgLtoObj (did : String) : String :=
  "Dish " ++ quoted did ++ " lto_details must be an object"

def msgLtoStart (did : String) : String :=
  "Dish " ++ quoted did ++ " lto_details is missing valid start_time"

def msgLtoEnd (did : String) : String :=
  "Dish " ++ quoted did ++ " lto_details is missing valid end_time"

def msgLtoOrder (did : String) : String :=
  "Dish " ++ quoted did ++ " lto_details has end_time that is not after start_time"

def msgLtoCopy (did : String) : String :=
  "Dish " ++ quoted did ++ " lto_details is missing or has too short marketing_copy"

def msgFeedbackShort (did : String) : String :=
  "Dish " ++ quoted did ++ " has invalid customer_feedback_summary: too short"

def msgBundleName (bid : String) : String :=
  "Bundle " ++ quoted bid ++ " must have a bundle_name"

def msgBundleItems (bid : String) : String :=
  "Bundle " ++ quoted bid ++ " must have at least one item in included_items"

def msgBundlePrice (bid : String) : String :=
  "Bundle " ++ quoted bid ++ " must have a valid bundle_price greater than zero"

def msgBundleCopy (bid : String) : String :=
  "Bundle " ++ quoted bid ++ " has invalid or too short bundle_marketing_copy"

def msgSeoUnused (ks : List String) : String :=
  "SEO: Some key terms are not used in marketing text: " ++ String.intercalate ", " ks

def msgSeoLow (ks : List String) : String :=
  "SEO: Some key terms have low usage in marketing text: " ++ String.intercalate ", " ks

/-! ### Loop combinators (Python `for` loops appending to `validation_issues`) -/

/-- A `for` loop whose body appends issues; stops at the first exception,
as an uncaught Python exception would. -/
def forIssues {α : Type} (f : α → Py (List String)) : List α → Py (List String)
  | [] => .ok []
  | x :: xs => do
    let h ← f x
    let t ← forIssues f xs
    pure (h ++ t)

/-- `for i, x in enumerate(xs)` appending issues, starting at index `i`. -/
def forIssuesIdx {α : Type} (f : Nat → α → Py (List String)) :
    Nat → List α → Py (List String)
  | _, [] => .ok []
  | i, x :: xs => do
    let h ← f i x
    let t ← forIssuesIdx f (i + 1) xs
    pure (h ++ t)

/-- A monadic list comprehension filter (`[f for f in fields if cond(f)]`). -/
def filterPy {α : Type} (p : α → Py Bool) : List α → Py (List α)
  | [] => .ok []
  | x :: xs => do
    let b ← p x
    let t ← filterPy p xs
    pure (if b then x :: t else t)

/-- A `for` loop threading an accumulator (the SEO collection pass). -/
def foldPy {σ α : Type} (f : σ → α → Py σ) : σ → List α → Py σ
  | s, [] => .ok s
  | s, x :: xs => do foldPy f (← f s x) xs

/-! ### Restaurant checks (validator.py lines 150-260) -/

/-- Lines 163-170: the quality check for one key message point. -/
def kmpPointCheck (rid : String) (j : Nat) (point : Json) : Py (List String) := do
  let p ← asStr "split" point
  let n := (pyWords p).length
  if n < 3 then pure [msgKmpShort rid j n]
  else if n > 10 then pure [msgKmpLong rid j n]
  else pure []

/-- Lines 155-170: `key_message_points` structure, plus per-point word-count
bounds when `content_quality` is set. -/
def checkKeyMessagePoints (cq : Bool) (rid : String) (r : Json) : Py (List String) := do
  if ← pyMem "key_message_points" r then
    let points ← pySub r "key_message_points"
    if !(pyTruthy points) || !(isListJ points) then
      pure [msgKmpInvalid rid]
    else if cq then do
      let pts ← pyIter points
      forIssuesIdx (kmpPointCheck rid) 0 pts
    else pure []
  else pure []

/-- Lines 172-183: `suggested_prompt_template` must be a non-empty string
containing each `{placeholder}`. -/
def checkPromptTemplate (rid : String) (r : Json) : Py (List String) := do
  if ← pyMem "suggested_prompt_template" r then
    let template ← pySub r "suggested_prompt_template"
    if !(pyTruthy template) || !(isStrJ template) then
      pure [msgTmplInvalid rid]
    else
      pure ((["restaurant_name", "key_message_points", "length"].filter
        fun v => !(pyInStr ("\x7b" ++ v ++ "\x7d") (strOf template))).map
          (msgTmplMissing rid))
  else pure []

/-- Lines 189-201: loyalty program tiers, and `promo_blurb` length under
`content_quality`. -/
def checkLoyalty (cq : Bool) (rid : String) (marketing : Json) : Py (List String) := do
  if ← pyMem "loyalty_program" marketing then
    let program ← pySub marketing "loyalty_program"
    let tiersIssues ← do
      if ← pyMem "tiers" program then
        let tiers ← pySub program "tiers"
        pure (if !(pyTruthy tiers) || !(isListJ tiers) then [msgTiers rid] else [])
      else pure []
    let blurbIssues ← do
      if cq then
        if ← pyMem "promo_blurb" program then do
          let b ← asStr "split" (← pySub program "promo_blurb")
          pure (if (pyWords b).length < 5 then [msgPromoBlurb rid] else [])
        else pure []
      else pure []
    pure (tiersIssues ++ blurbIssues)
  else pure []

/-- Lines 210-225: one promotional offer — time ordering, and
`marketing_copy` quality under `content_quality`. -/
def checkOffer (cq : Bool) (rid : String) (j : Nat) (offer : Json) : Py (List String) := do
  let timeIssues ← do
    if ← pyMem "start_time" offer then
      if ← pyMem "end_time" offer then do
        let gt ← pyGtB (← pySub offer "start_time") (← pySub offer "end_time")
        if gt then do
          let nm ← pyGet offer "offer_name" (.str "unnamed")
          pure [msgOfferTime (pyStr nm)]
        else pure []
      else pure []
    else pure []
  let copyIssues ← do
    if cq then
      if ← pyMem "marketing_copy" offer then do
        let copy ← asStr "split" (← pySub offer "marketing_copy")
        let short := if (pyWords copy).length < 5 then [msgCopyShort rid j] else []
        let engage :=
          if !(pyInStr "!" copy || pyInStr "?" copy) then [msgCopyEngage rid j] else []
        pure (short ++ engage)
      else pure []
    else pure []
  pure (timeIssues ++ copyIssues)

/-- Lines 203-225: the `promotional_offers` list. -/
def checkOffers (cq : Bool) (rid : String) (marketing : Json) : Py (List String) := do
  if ← pyMem "promotional_offers" marketing then
    let offers ← pySub marketing "promotional_offers"
    if !(isListJ offers) then pure [msgOffersList rid]
    else do
      let xs ← pyIter offers
      forIssuesIdx (checkOffer cq rid) 0 xs
  else pure []

/-- Lines 231-235: the required-list check for one social media field. -/
def socialFieldCheck (rid : String) (social : Json) (fieldName : String) :
    Py (List String) := do
  let m ← pyMem fieldName social
  if !m then pure [msgSocialField rid fieldName]
  else do
    let v ← pySub social fieldName
    pure (if !(isListJ v) || !(pyTruthy v) then [msgSocialField rid fieldName]
      else [])

/-- Lines 247-250: the format check for one hashtag token. -/
def hashtagCheck (rid : String) (tag : Json) : Py (List String) := do
  let h ← asStr "startswith" tag
  pure (if !(pyStartsWith h "#") then [msgHashtag rid h] else [])

/-- Lines 227-250: social media strategy — required non-empty lists, and
blurb length plus hashtag format under `content_quality` (the hashtag
check runs only when a `social_media_blurb` is present). -/
def checkSocial (cq : Bool) (rid : String) (marketing : Json) : Py (List String) := do
  if ← pyMem "social_media_strategy" marketing then
    let social ← pySub marketing "social_media_strategy"
    let reqIssues ← forIssues (socialFieldCheck rid social)
      ["platforms", "hashtags"]
    let cqIssues ← do
      if cq then
        if ← pyMem "social_media_blurb" social then do
          let blurb ← asStr "split" (← pySub social "social_media_blurb")
          let n := (pyWords blurb).length
          let blurbIssues := if n < 10 then [msgBlurbShort rid n] else []
          let tagIssues ← do
            if ← pyMem "hashtags" social then do
              let tags ← pyIter (← pySub social "hashtags")
              forIssues (hashtagCheck rid) tags
            else pure []
          pure (blurbIssues ++ tagIssues)
        else pure []
      else pure []
    pure (reqIssues ++ cqIssues)
  else pure []

/-- Lines 252-260: website call-to-action. -/
def checkCta (rid : String) (marketing : Json) : Py (List String) := do
  if ← pyMem "website_cta" marketing then
    let cta ← pySub marketing "website_cta"
    let btnIssues ← do
      if ← pyMem "button_text" cta then do
        let n ← pyLen (← pySub cta "button_text")
        pure (if n < 2 then [msgCtaBtn rid] else [])
      else pure []
    let urlIssues ← do
      if ← pyMem "target_url" cta then do
        let u ← asStr "startswith" (← pySub cta "target_url")
        pure (if !(pyStartsWith u "http") then [msgCtaUrl rid] else [])
      else pure []
    pure (btnIssues ++ urlIssues)
  else pure []

/-- Lines 152-260: all checks for one restaurant (`i` is the position in
the `restaurants` list, used by the fallback id). -/
def checkRestaurant (cq : Bool) (i : Nat) (r : Json) : Py (List String) := do
  let ridJ ← pyGet r "id" (.str ("restaurant-" ++ toString i))
  let rid := pyStr ridJ
  let kmp ← checkKeyMessagePoints cq rid r
  let tmpl ← checkPromptTemplate rid r
  let mkt ← do
    if ← pyMem "marketing_extension" r then
      let marketing ← pySub r "marketing_extension"
      let l ← checkLoyalty cq rid marketing
      let o ← checkOffers cq rid marketing
      let s ← checkSocial cq rid marketing
      let c ← checkCta rid marketing
      pure (l ++ o ++ s ++ c)
    else pure []
  pure (kmp ++ tmpl ++ mkt)

/-- Lines 151-260: the `restaurants` loop. -/
def checkRestaurants (cq : Bool) (feed : Json) : Py (List String) := do
  if ← pyMem "restaurants" feed then do
    let rs ← pyIter (← pySub feed "restaurants")
    forIssuesIdx (checkRestaurant cq) 0 rs
  else pure []

/-! ### Dish checks (validator.py lines 262-425) -/

/-- `re.match(r'^[a-z]\x7b2\x7d$', lang_code)` as a decidable predicate. -/
def isLang2 (s : String) : Bool :=
  s.length == 2 && s.toList.all fun c => 'a' ≤ c && c ≤ 'z'

/-- Lines 290-329: content-quality heuristics for one narrative translation:
word-count bounds, terminal punctuation, dish-name mention, average word
length, and sentence-length variety — in the source's append order. -/
def cqTranslationIssues (did fieldName : String) (dishName : Json)
    (content : String) : Py (List String) := do
  let words := pyWords content
  let n := words.length
  let lenIssues :=
    if fieldName == "chef_highlight" && n > 50 then [msgNarrLong did fieldName n]
    else if fieldName == "chef_highlight" && n < 10 then [msgNarrShort10 did fieldName n]
    else if (fieldName == "chef_story" || fieldName == "seasonal_story" ||
        fieldName == "cultural_context") && n < 30 then [msgNarrShort30 did fieldName n]
    else []
  let punctIssues :=
    if content.length > 0 &&
        !(lastChar content == '.' || lastChar content == '!' ||
          lastChar content == '?') then
      [msgPunct did fieldName]
    else []
  let nameStr ← asStr "lower" dishName
  let mentionIssues :=
    if !(pyInStr (strLower nameStr) (strLower content)) && n > 20 then
      [msgMention did fieldName (pyStr dishName)]
    else []
  let qualityIssues :=
    if n > 15 then
      -- `sum(len(w) for w in words) / len(words) > 8` as the exact
      -- integer comparison `8 * len(words) < sum` (`n > 15 > 0` here)
      let sumLen := (words.map String.length).sum
      let avgIssues :=
        if 8 * n < sumLen then [msgAvgLen did fieldName (fmtAvgDot1 sumLen n)] else []
      let sentences :=
        (((charsSplit (fun c => c == '.' || c == '!' || c == '?') content.data).map
          fun cs => strTrim (String.mk cs)).filter fun s => !s.isEmpty)
      let varIssues :=
        if sentences.length > 1 then
          let lens := sentences.map fun s => (pyWords s).length
          if lens.max? == lens.min? then [msgUniform did fieldName] else []
        else []
      avgIssues ++ varIssues
    else []
  pure (lenIssues ++ punctIssues ++ mentionIssues ++ qualityIssues)

/-- Lines 272-329: one narrative field of a dish — TranslatedString shape,
language codes, and per-translation content quality when enabled. -/
def checkNarrativeField (cq : Bool) (did : String) (dishName : Json)
    (fieldName : String) (dish : Json) : Py (List String) := do
  if ← pyMem fieldName dish then
    let translated ← pySub dish fieldName
    if !(isDictJ translated) then pure [msgNarrFormat did fieldName]
    else if !(← pyMem "translations" translated) then pure [msgNarrFormat did fieldName]
    else do
      let translations ← pySub translated "translations"
      if !(pyTruthy translations) || !(isDictJ translations) then
        pure [msgNarrEmpty did fieldName]
      else do
        let items ← pyItems translations
        forIssues (fun kv => do
          let langIssues :=
            if !(isLang2 kv.1) then [msgLang did kv.1 fieldName] else []
          let cqIssues ← do
            if cq then do
              let content ← asStr "split" kv.2
              cqTranslationIssues did fieldName dishName content
            else pure []
          pure (langIssues ++ cqIssues)) items
  else pure []

/-- The seven narrative fields of line 269-270. -/
def narrativeFields : List String :=
  ["chef_story", "chef_highlight", "chef_anecdote", "culinary_philosophy",
   "seasonal_story", "cultural_context", "ingredient_story"]

/-- Lines 331-349: supplier location coordinate ranges and detailed-address
completeness. -/
def checkSupplierLocation (did : String) (dish : Json) : Py (List String) := do
  if ← pyMem "supplier_location" dish then
    let location ← pySub dish "supplier_location"
    let latIssues ← do
      if ← pyMem "latitude" location then do
        let lat ← pySub location "latitude"
        let lo ← pyLtB lat (.int (-90))
        if lo then pure [msgLat did (pyStr lat)]
        else do
          let hi ← pyGtB lat (.int 90)
          pure (if hi then [msgLat did (pyStr lat)] else [])
      else pure []
    let lonIssues ← do
      if ← pyMem "longitude" location then do
        let lon ← pySub location "longitude"
        let lo ← pyLtB lon (.int (-180))
        if lo then pure [msgLon did (pyStr lon)]
        else do
          let hi ← pyGtB lon (.int 180)
          pure (if hi then [msgLon did (pyStr lon)] else [])
      else pure []
    let detIssues ← do
      if ← pyMem "detailed" location then do
        let detailed ← pySub location "detailed"
        let missing ← filterPy (fun f => do
          let m ← pyMem f detailed
          if !m then pure true
          else do
            let v ← pySub detailed f
            pure (!(pyTruthy v))) ["street_address", "locality", "state", "country"]
        pure (if !missing.isEmpty then [msgLocMissing did missing] else [])
      else pure []
    pure (latIssues ++ lonIssues ++ detIssues)
  else pure []

/-- Lines 351-353: supplier certification length. -/
def checkCertification (did : String) (dish : Json) : Py (List String) := do
  if ← pyMem "supplier_certification" dish then do
    let n ← pyLen (← pySub dish "supplier_certification")
    pure (if n < 2 then [msgCert did] else [])
  else pure []

/-- Lines 355-362: farm distance must be a positive number; values above
500 draw a verification warning. -/
def checkFarmDistance (did : String) (dish : Json) : Py (List String) := do
  if ← pyMem "farm_distance" dish then
    let distance ← pySub dish "farm_distance"
    if !(isNumJ distance) then pure [msgFarmInvalid did (pyStr distance)]
    else do
      let le0 ← pyLeB distance (.int 0)
      if le0 then pure [msgFarmInvalid did (pyStr distance)]
      else do
        let big ← pyGtB distance (.int 500)
        pure (if big then [msgFarmLarge did (pyStr distance)] else [])
  else pure []

/-- Lines 364-368: sustainability impact string length. -/
def checkSustainability (did : String) (dish : Json) : Py (List String) := do
  if ← pyMem "sustainability_impact" dish then
    let impact ← pySub dish "sustainability_impact"
    pure (if !(isStrJ impact) || (strOf impact).length < 10 then [msgSust did] else [])
  else pure []

/-- Lines 377-393: one upgrade option. -/
def checkUpgradeOption (did : String) (i : Nat) (opt : Json) : Py (List String) := do
  if !(isDictJ opt) then pure [msgUpgObj did i]
  else do
    let nameIssues ← do
      let m ← pyMem "new_name" opt
      if !m then pure [msgUpgName did i]
      else do
        let v ← pySub opt "new_name"
        pure (if !(pyTruthy v) then [msgUpgName did i] else [])
    let priceIssues ← do
      if ← pyMem "new_price" opt then do
        let v ← pySub opt "new_price"
        pure (if !(isNumJ v) then [msgUpgPrice did i] else [])
      else pure []
    let copyIssues ← do
      let m ← pyMem "marketing_copy" opt
      if !m then pure [msgUpgCopy did i]
      else do
        let v ← pySub opt "marketing_copy"
        pure (if !(pyTruthy v) then [msgUpgCopy did i] else [])
    pure (nameIssues ++ priceIssues ++ copyIssues)

/-- Lines 370-393: the `upgrade_options` array. -/
def checkUpgradeOptions (did : String) (dish : Json) : Py (List String) := do
  if ← pyMem "upgrade_options" dish then
    let options ← pySub dish "upgrade_options"
    if !(isListJ options) then pure [msgUpgArr did]
    else do
      let xs ← pyIter options
      forIssuesIdx (checkUpgradeOption did) 0 xs
  else pure []

/-- Lines 395-418: limited-time-offer details. -/
def checkLtoDetails (did : String) (dish : Json) : Py (List String) := do
  if ← pyMem "lto_details" dish then
    let lto ← pySub dish "lto_details"
    if !(isDictJ lto) then pure [msgLtoObj did]
    else do
      let startIssues ← do
        let m ← pyMem "start_time" lto
        if !m then pure [msgLtoStart did]
        else do
          let v ← pySub lto "start_time"
          pure (if !(isIntJ v) then [msgLtoStart did] else [])
      let endIssues ← do
        let m ← pyMem "end_time" lto
        if !m then pure [msgLtoEnd did]
        else do
          let v ← pySub lto "end_time"
          pure (if !(isIntJ v) then [msgLtoEnd did] else [])
      let orderIssues ← do
        if ← pyMem "start_time" lto then
          if ← pyMem "end_time" lto then do
            let ge ← pyGeB (← pySub lto "start_time") (← pySub lto "end_time")
            pure (if ge then [msgLtoOrder did] else [])
          else pure []
        else pure []
      let copyIssues ← do
        let m ← pyMem "marketing_copy" lto
        if !m then pure [msgLtoCopy did]
        else do
          let v ← pySub lto "marketing_copy"
          pure (if !(isStrJ v) || (strOf v).length < 10 then [msgLtoCopy did] else [])
      pure (startIssues ++ endIssues ++ orderIssues ++ copyIssues)
  else pure []

/-- Lines 420-425: customer feedback summary. -/
def checkFeedbackSummary (did : String) (dish : Json) : Py (List String) := do
  if ← pyMem "customer_feedback_summary" dish then
    let fb ← pySub dish "customer_feedback_summary"
    pure (if !(isStrJ fb) || (strOf fb).length < 5 then [msgFeedbackShort did] else [])
  else pure []

/-- Lines 263-425: all checks for one dish, in source order. -/
def checkDish (cq : Bool) (dish : Json) : Py (List String) := do
  let didJ ← pyGet dish "id" (.str "unknown")
  let dishName ← pyGet dish "name" didJ
  let did := pyStr didJ
  let narr ← forIssues (fun f => checkNarrativeField cq did dishName f dish)
    narrativeFields
  let loc ← checkSupplierLocation did dish
  let cert ← checkCertification did dish
  let farm ← checkFarmDistance did dish
  let sust ← checkSustainability did dish
  let upg ← checkUpgradeOptions did dish
  let lto ← checkLtoDetails did dish
  let fb ← checkFeedbackSummary did dish
  pure (narr ++ loc ++ cert ++ farm ++ sust ++ upg ++ lto ++ fb)

/-- Lines 263-425: the `dishes` loop. -/
def checkDishes (cq : Bool) (feed : Json) : Py (List String) := do
  if ← pyMem "dishes" feed then do
    let ds ← pyIter (← pySub feed "dishes")
    forIssues (checkDish cq) ds
  else pure []

/-! ### Bundle checks (validator.py lines 427-446) -/

/-- Lines 429-446: one bundle. -/
def checkBundle (bundle : Json) : Py (List String) := do
  let bidJ ← pyGet bundle "bundle_id" (.str "unknown")
  let bid := pyStr bidJ
  let nameIssues ← do
    let m ← pyMem "bundle_name" bundle
    if !m then pure [msgBundleName bid]
    else do
      let v ← pySub bundle "bundle_name"
      pure (if !(pyTruthy v) then [msgBundleName bid] else [])
  let itemIssues ← do
    let m ← pyMem "included_items" bundle
    if !m then pure [msgBundleItems bid]
    else do
      let v ← pySub bundle "included_items"
      pure (if !(pyTruthy v) then [msgBundleItems bid] else [])
  let priceIssues ← do
    let m ← pyMem "bundle_price" bundle
    if !m then pure [msgBundlePrice bid]
    else do
      let v ← pySub bundle "bundle_price"
      if !(isNumJ v) then pure [msgBundlePrice bid]
      else do
        let le ← pyLeB v (.int 0)
        pure (if le then [msgBundlePrice bid] else [])
  let copyIssues ← do
    if ← pyMem "bundle_marketing_copy" bundle then
      let v ← pySub bundle "bundle_marketing_copy"
      pure (if !(isStrJ v) || (strOf v).length < 10 then [msgBundleCopy bid] else [])
    else pure []
  pure (nameIssues ++ itemIssues ++ priceIssues ++ copyIssues)

/-- Lines 428-446: the `bundles` loop. -/
def checkBundles (feed : Json) : Py (List String) := do
  if ← pyMem "bundles" feed then do
    let bs ← pyIter (← pySub feed "bundles")
    forIssues checkBundle bs
  else pure []

/-! ### SEO analysis (validator.py lines 449-523) -/

/-- Line 495: the fixed stopword list. -/
def stopwords : List String :=
  ["a", "an", "the", "and", "or", "but", "in", "on", "at", "to", "for",
   "is", "are", "was", "were"]

/-- `keywords.add(k)`: CPython sets are unordered; we model the set as a
deduplicating list in insertion order (no analyzed property depends on
the order of a multi-keyword set). -/
def addKeyword (kws : List String) (k : String) : List String :=
  if kws.contains k then kws else kws ++ [k]

/-- Lines 456-477: one restaurant's contribution to the SEO keyword set
and the flat list of marketing texts (texts are collected raw and only
coerced to strings at analysis time, as in the source). -/
def seoRestaurant (acc : List String × List Json) (r : Json) :
    Py (List String × List Json) := do
  let ridJ ← pyGet r "id" (.str "unknown")
  let _ ← pyGet r "name" ridJ
  let kws ← do
    if ← pyMem "key_message_points" r then do
      let pts ← pyIter (← pySub r "key_message_points")
      let lowered ← pts.mapM fun p => do pure (strLower (← asStr "lower" p))
      pure (lowered.foldl addKeyword acc.1)
    else pure acc.1
  let texts ← do
    if ← pyMem "marketing_extension" r then do
      let marketing ← pySub r "marketing_extension"
      let t1 ← do
        if ← pyMem "loyalty_program" marketing then do
          let lp ← pySub marketing "loyalty_program"
          if ← pyMem "promo_blurb" lp then do
            pure [← pySub lp "promo_blurb"]
          else pure []
        else pure []
      let t2 ← do
        if ← pyMem "promotional_offers" marketing then do
          let offers ← pyIter (← pySub marketing "promotional_offers")
          let parts ← offers.mapM fun o => do
            if ← pyMem "marketing_copy" o then pure [← pySub o "marketing_copy"]
            else pure ([] : List Json)
          pure parts.flatten
        else pure []
      let t3 ← do
        if ← pyMem "social_media_strategy" marketing then do
          let sm ← pySub marketing "social_media_strategy"
          if ← pyMem "social_media_blurb" sm then
            pure [← pySub sm "social_media_blurb"]
          else pure []
        else pure []
      pure (acc.2 ++ t1 ++ t2 ++ t3)
    else pure acc.2
  pure (kws, texts)

/-- Line 486: the narrative fields scanned by the SEO pass (two of the
seven structural narrative fields are not scanned here). -/
def seoNarrativeFields : List String :=
  ["chef_story", "chef_highlight", "seasonal_story", "cultural_context",
   "ingredient_story"]

/-- Lines 481-490: one dish's contribution — its name becomes a keyword,
its narrative translations become marketing texts. -/
def seoDish (acc : List String × List Json) (dish : Json) :
    Py (List String × List Json) := do
  let idJ ← pyGet dish "id" (.str "unknown")
  let nameJ ← pyGet dish "name" idJ
  let nm ← asStr "lower" nameJ
  let kws := addKeyword acc.1 (strLower nm)
  let texts ← foldPy (fun ts f => do
    if ← pyMem f dish then do
      let v ← pySub dish f
      if ← pyMem "translations" v then do
        let items ← pyItems (← pySub v "translations")
        pure (ts ++ items.map Prod.snd)
      else pure ts
    else pure ts) acc.2 seoNarrativeFields
  pure (kws, texts)

/-- Lines 497-499: tokenize one marketing text — split on whitespace,
lower-case, strip surrounding punctuation, drop empties and stopwords. -/
def tokenize (text : String) : List String :=
  ((pyWords text).map fun w => pyStripPunct (strLower w)).filter fun w =>
    !w.isEmpty && !(stopwords.contains w)

/-- Lines 449-523: the whole SEO pass.  The printed diagnostics
(`most_common`, usage counts) produce no issues and are not modeled. -/
def seoBlock (feed : Json) : Py (List String) := do
  let hasR ← pyMem "restaurants" feed
  let go ← if hasR then pure true else pyMem "dishes" feed
  if go then do
    let accR ← do
      if ← pyMem "restaurants" feed then do
        let rs ← pyIter (← pySub feed "restaurants")
        foldPy seoRestaurant ([], []) rs
      else pure ([], [])
    let accD ← do
      if ← pyMem "dishes" feed then do
        let ds ← pyIter (← pySub feed "dishes")
        foldPy seoDish accR ds
      else pure accR
    let keywords := accD.1
    let allTexts := accD.2
    if !allTexts.isEmpty then do
      let strs ← allTexts.mapM (asStr "split")
      let allWords := (strs.map tokenize).flatten
      let usage := (keywords.filter fun k => !(pyStripPunct k).isEmpty).map
        fun k => (k, allWords.count (pyStripPunct k))
      let unused := (usage.filter fun kc => kc.2 == 0).map Prod.fst
      let lowUse := (usage.filter fun kc =>
        0 < kc.2 && kc.2 < 3 && allTexts.length > 5).map Prod.fst
      let uIssues := if unused.isEmpty then [] else [msgSeoUnused unused]
      let lIssues := if lowUse.isEmpty then [] else [msgSeoLow lowUse]
      pure (uIssues ++ lIssues)
    else pure []
  else pure []

/-! ### Top level (validator.py lines 137-533) -/

/-- `validate_marketing_fields(feed, content_quality, seo_check)` on an
already-loaded feed: the collected `validation_issues` in append order,
and the returned pass/fail verdict (`True` iff no issue was collected).
Loading and the version warning are logging-only and outside the core. -/
def validate_marketing_fields (feed : Json) (content_quality seo_check : Bool) :
    Py (List String × Bool) := do
  let r ← checkRestaurants content_quality feed
  let d ← checkDishes content_quality feed
  let b ← checkBundles feed
  let s ← if seo_check then seoBlock feed else pure []
  let issues := r ++ d ++ b ++ s
  pure (issues, issues.isEmpty)

/-! ### Generic decomposition lemmas -/

set_option maxRecDepth 1000000

theorem py_ebind_eq_ok {α β : Type} {x : Py α} {f : α → Py β} {b : β} :
    Except.bind x f = .ok b ↔ ∃ a, x = .ok a ∧ f a = .ok b := by
  cases x <;> simp [Except.bind]

/-- The run decomposes into its four sequential blocks, and the verdict is
emptiness of the concatenated issue list. -/
theorem validate_components (feed : Json) (cq seo : Bool) (is : List String)
    (p : Bool) (h : validate_marketing_fields feed cq seo = .ok (is, p)) :
    ∃ r d b s, checkRestaurants cq feed = .ok r ∧ checkDishes cq feed = .ok d ∧
      checkBundles feed = .ok b ∧
      (if seo then seoBlock feed else pure []) = .ok s ∧
      is = r ++ d ++ b ++ s ∧ p = is.isEmpty := by
  cases seo with
  | false =>
    simp [validate_marketing_fields, bind, py_ebind_eq_ok] at h
    obtain ⟨r, hr, d, hd, b, hb, h1, h2⟩ := h
    refine ⟨r, d, b, [], hr, hd, hb, by simp, by simp [h1], ?_⟩
    rw [← h1, ← h2]
  | true =>
    simp [validate_marketing_fields, bind, py_ebind_eq_ok] at h
    obtain ⟨r, hr, d, hd, b, hb, s, hs, h1, h2⟩ := h
    refine ⟨r, d, b, s, hr, hd, hb, by simp [hs], by simp [h1], ?_⟩
    rw [← h1, ← h2]

/-! ### Evaluation lemmas for parametric feeds -/

theorem pyGtB_int (s e : Int) :
    pyGtB (Json.int s) (Json.int e) = .ok (decide (e < s)) := by
  simp [pyGtB, pyLtB, pyNumVal]

/-- A promotional offer carrying symbolic start and end times. -/
def offerObj (s e : Int) : Json :=
  .obj [("offer_name", .str "summer"), ("start_time", .int s),
        ("end_time", .int e)]

def offerFeed (s e : Int) : Json :=
  .obj [("restaurants", .arr [.obj [("id", .str "r1"),
    ("marketing_extension", .obj
      [("promotional_offers", .arr [offerObj s e])])]])]

theorem checkOffer_offerObj (s e : Int) (cq : Bool) :
    checkOffer cq "r1" 0 (offerObj s e) =
      .ok (if e < s then [msgOfferTime "summer"] else []) := by
  by_cases h : e < s <;>
    cases cq <;>
      simp [checkOffer, offerObj, pyMem, pySub, pyGet, pyStr, lookupField,
        pyGtB_int, h]

theorem checkRestaurants_offerFeed (s e : Int) (cq : Bool) :
    checkRestaurants cq (offerFeed s e) =
      .ok (if e < s then [msgOfferTime "summer"] else []) := by
  simp [checkRestaurants, checkRestaurant, checkKeyMessagePoints,
    checkPromptTemplate, checkLoyalty, checkOffers, checkSocial, checkCta,
    offerFeed, forIssuesIdx, pyMem, pySub, pyGet, pyIter, pyStr, pyRepr,
    lookupField, checkOffer_offerObj]

/-- The per-entry word-count rule of lines 163-170, as a recursive
description of the loop's output. -/
def kmpExpected (rid : String) : Nat → List String → List String
  | _, [] => []
  | j, p :: ps =>
    (if (pyWords p).length < 3 then [msgKmpShort rid j (pyWords p).length]
     else if (pyWords p).length > 10 then [msgKmpLong rid j (pyWords p).length]
     else [])
    ++ kmpExpected rid (j + 1) ps

theorem kmpLoop (rid : String) : ∀ (j : Nat) (ps : List String),
    forIssuesIdx (kmpPointCheck rid) j (ps.map Json.str) =
      .ok (kmpExpected rid j ps) := by
  intro j ps
  induction ps generalizing j with
  | nil => rfl
  | cons p ps ih =>
    simp [forIssuesIdx, kmpPointCheck, asStr, kmpExpected, ih]
    split_ifs <;> simp

/-- A feed holding one restaurant whose `key_message_points` are the given
phrases. -/
def kmpFeed (pts : List String) : Json :=
  .obj [("restaurants", .arr [.obj [("id", .str "r1"),
    ("key_message_points", .arr (pts.map .str))]])]

/-- The hashtag-format rule of lines 246-250: one issue per entry lacking
the leading "#". -/
def hashtagExpected (rid : String) (hs : List String) : List String :=
  hs.filterMap fun h =>
    if pyStartsWith h "#" then none else some (msgHashtag rid h)

theorem hashtagLoop (rid : String) : ∀ hs : List String,
    forIssues (hashtagCheck rid) (hs.map Json.str) =
      .ok (hashtagExpected rid hs) := by
  intro hs
  induction hs with
  | nil => rfl
  | cons h t ih =>
    simp only [List.map_cons, forIssues, hashtagCheck, asStr, py_bind_ok, ih,
      hashtagExpected, List.filterMap_cons]
    split_ifs <;> simp_all

/-- A social media strategy with well-formed platforms and blurb and the
given hashtag entries. -/
def socialObj (hs : List String) : Json :=
  .obj [("platforms", .arr [.str "instagram"]),
        ("hashtags", .arr (hs.map .str)),
        ("social_media_blurb",
         .str "one two three four five six seven eight nine ten")]

def hashFeed (hs : List String) : Json :=
  .obj [("restaurants", .arr [.obj [("id", .str "r1"),
    ("marketing_extension", .obj
      [("social_media_strategy", socialObj hs)])]])]

/-- The same strategy with a "LocalFood" hashtag but no
`social_media_blurb`. -/
def hashFeedNoBlurb : Json :=
  .obj [("restaurants", .arr [.obj [("id", .str "r1"),
    ("marketing_extension", .obj [("social_media_strategy", .obj
      [("platforms", .arr [.str "instagram"]),
       ("hashtags", .arr [.str "LocalFood"])])])]])]

/-! ### Concrete feeds used by the claims -/

/-- Zero structural violations; one content-quality violation (a 1-word
key message point) and one SEO violation (the keyword "hi" unused by the
only marketing text). -/
def feedG : Json :=
  .obj [("restaurants", .arr [.obj [("id", .str "r1"),
    ("key_message_points", .arr [.str "hi"]),
    ("marketing_extension", .obj [("loyalty_program", .obj
      [("promo_blurb", .str "very nice tasty food here.")])])]])]

/-- Restaurant `r1` carries a key message point of runtime type `int`
(`point.split()` raises `AttributeError`); restaurant `r2` carries an
independent structural violation (empty `key_message_points`). -/
def feedC2 : Json :=
  .obj [("restaurants", .arr [
    .obj [("id", .str "r1"), ("key_message_points", .arr [.int 5])],
    .obj [("id", .str "r2"), ("key_message_points", .arr [])]])]

/-- Restaurant `r2` of `feedC2` on its own. -/
def feedC2b : Json :=
  .obj [("restaurants", .arr [
    .obj [("id", .str "r2"), ("key_message_points", .arr [])]])]

/-- One restaurant with a content-quality violation (1-word key message
point) and a structural violation (template missing every placeholder)
on the same entity. -/
def feedC3 : Json :=
  .obj [("restaurants", .arr [.obj [("id", .str "r1"),
    ("key_message_points", .arr [.str "hi"]),
    ("suggested_prompt_template", .str "make ad")]])]

/-- A chef-highlight text of `n` words, each one the dish name, ending
with a period. -/
def chefText (n : Nat) : String :=
  String.intercalate " " (List.replicate n "Dish") ++ "."

def chefFeed (content : String) : Json :=
  .obj [("dishes", .arr [.obj [("id", .str "d1"), ("name", .str "Dish"),
    ("chef_highlight", .obj [("translations", .obj
      [("en", .str content)])])]])]

/-- Offer copy mentioning "salmon" for the first `k` of six offers. -/
def seoOfferCopy (i k : Nat) : String :=
  if i < k then "tasty salmon dinner" else "tasty tuna dinner"

/-- Keyword "salmon", six marketing texts, `k` of them using the keyword. -/
def seoFeed (k : Nat) : Json :=
  .obj [("restaurants", .arr [.obj [("id", .str "r1"),
    ("key_message_points", .arr [.str "salmon"]),
    ("marketing_extension", .obj [("promotional_offers", .arr
      ((List.range 6).map fun i => .obj
        [("marketing_copy", .str (seoOfferCopy i k))]))])]])]

/-- Keyword "salmon" used once, but only five marketing texts. -/
def seoFeed5 : Json :=
  .obj [("restaurants", .arr [.obj [("id", .str "r1"),
    ("key_message_points", .arr [.str "salmon"]),
    ("marketing_extension", .obj [("promotional_offers", .arr
      ((List.range 5).map fun i => .obj
        [("marketing_copy", .str (seoOfferCopy i 1))]))])]])]

/-- A dish name ("Sushi") as the keyword, absent from all six texts. -/
def seoFeedD : Json :=
  .obj [("restaurants", .arr [.obj [("id", .str "r1"),
    ("marketing_extension", .obj [("promotional_offers", .arr
      ((List.range 6).map fun _ => .obj
        [("marketing_copy", .str "tasty tuna dinner")]))])]]),
   ("dishes", .arr [.obj [("id", .str "d1"), ("name", .str "Sushi")]])]

/-- Three generic marketing texts without terminal punctuation (loyalty
promo blurb, offer copy, social blurb) plus one dish narrative without
terminal punctuation. -/
def feedC8 : Json :=
  .obj [("restaurants", .arr [.obj [("id", .str "r1"),
    ("marketing_extension", .obj
      [("loyalty_program", .obj [("promo_blurb", .str "aa bb cc dd ee")]),
       ("promotional_offers", .arr [.obj
         [("marketing_copy", .str "great! food is very good")]]),
       ("social_media_strategy", .obj
         [("platforms", .arr [.str "instagram"]),
          ("hashtags", .arr [.str "#x"]),
          ("social_media_blurb",
           .str "one two three four five six seven eight nine ten")])])]]),
   ("dishes", .arr [.obj [("id", .str "d1"), ("name", .str "Dish"),
     ("chef_highlight", .obj [("translations", .obj
       [("en", .str "Dish one two three four five six seven eight nine")])])]])]

/-- Loyalty promo blurb of five words without terminal punctuation. -/
def feedPromoNoPunct : Json :=
  .obj [("restaurants", .arr [.obj [("id", .str "r1"),
    ("marketing_extension", .obj [("loyalty_program", .obj
      [("promo_blurb", .str "aa bb cc dd ee")])])]])]

/-- Offer marketing copy ending with "." but containing no "!" or "?". -/
def feedCopyNoBang : Json :=
  .obj [("restaurants", .arr [.obj [("id", .str "r1"),
    ("marketing_extension", .obj [("promotional_offers", .arr [.obj
      [("marketing_copy", .str "this food is very good.")]])])]])]

/-- Social media blurb of ten words without terminal punctuation. -/
def feedBlurbNoPunct : Json :=
  .obj [("restaurants", .arr [.obj [("id", .str "r1"),
    ("marketing_extension", .obj [("social_media_strategy", .obj
      [("platforms", .arr [.str "instagram"]),
       ("hashtags", .arr [.str "#x"]),
       ("social_media_blurb",
        .str "one two three four five six seven eight nine ten")])])]])]

/-- Dish narrative of ten words ending with "!". -/
def feedNarrBang : Json :=
  .obj [("dishes", .arr [.obj [("id", .str "d2"), ("name", .str "Dish"),
    ("chef_highlight", .obj [("translations", .obj
      [("en", .str "Dish one two three four five six seven eight nine!")])])]])]

/-- Dish narrative of ten words without terminal punctuation. -/
def feedNarrNoPunct : Json :=
  .obj [("dishes", .arr [.obj [("id", .str "d2"), ("name", .str "Dish"),
    ("chef_highlight", .obj [("translations", .obj
      [("en", .str "Dish one two three four five six seven eight nine")])])]])]

/-- One dish carrying a symbolic numeric `farm_distance`. -/
def farmFeed (d : Int) : Json :=
  .obj [("dishes", .arr [.obj [("id", .str "d1"),
    ("farm_distance", .int d)]])]

/-! ### The claims -/

/-- C1: `validate_marketing_fields` returns `passed = true` iff the
collected issue list is empty; structural checks always run while
content-quality and SEO checks are gated by their flags, so `feedG` —
zero structural violations, one content-quality and one SEO violation —
passes with both flags disabled and fails (with exactly those two
issues) with both enabled. -/
theorem claim_c1 :
    (∀ (feed : Json) (cq seo : Bool) (is : List String) (p : Bool),
      validate_marketing_fields feed cq seo = .ok (is, p) →
        (p = true ↔ is = []))
    ∧ validate_marketing_fields feedG false false = .ok ([], true)
    ∧ validate_marketing_fields feedG true true =
        .ok ([msgKmpShort "r1" 0 1, msgSeoUnused ["hi"]], false) := by
  refine ⟨?_, rfl, rfl⟩
  intro feed cq seo is p h
  obtain ⟨r, d, b, s, _, _, _, _, _, hp⟩ := validate_components feed cq seo is p h
  subst hp
  exact List.isEmpty_iff

/-- C1 witness: the passed-iff-empty equivalence applied to the
fully-enabled run on `feedG`. -/
theorem claim_c1_witness :
    (false = true ↔
      ([msgKmpShort "r1" 0 1, msgSeoUnused ["hi"]] : List String) = []) :=
  claim_c1.1 feedG true true [msgKmpShort "r1" 0 1, msgSeoUnused ["hi"]] false
    (by rfl)

/-- C2 counterexample: an `AttributeError` while analyzing restaurant
`r1` (an `int` key message point hitting `point.split()`) aborts the
whole run with an error instead of being converted into one diagnostic
issue — no issue list at all is produced, contradicting the claim. -/
theorem claim_c2_counterexample :
    validate_marketing_fields feedC2 true false =
      .error (PyErr.attrError "split") := rfl

/-- C2 amended: an unexpected internal failure while analyzing one entity
aborts the run — the exception propagates and the independent structural
violation of restaurant `r2` is lost, although the same rule set run on
`r2` alone does report it. -/
theorem claim_c2 :
    validate_marketing_fields feedC2 true false =
      .error (PyErr.attrError "split")
    ∧ validate_marketing_fields feedC2b true false =
        .ok ([msgKmpInvalid "r2"], false) := ⟨rfl, rfl⟩

/-- C3 counterexample: on `feedC3` the structural issues (the run with
both flags off) are not a prefix of the full issue list of the
content-quality run — the content-quality issue of restaurant `r1`
precedes that restaurant's structural template issues, so the list is
not ordered "all structural first". -/
theorem claim_c3_counterexample :
    validate_marketing_fields feedC3 false false =
      .ok ([msgTmplMissing "r1" "restaurant_name",
            msgTmplMissing "r1" "key_message_points",
            msgTmplMissing "r1" "length"], false)
    ∧ validate_marketing_fields feedC3 true false =
        .ok ([msgKmpShort "r1" 0 1,
              msgTmplMissing "r1" "restaurant_name",
              msgTmplMissing "r1" "key_message_points",
              msgTmplMissing "r1" "length"], false)
    ∧ ([msgTmplMissing "r1" "restaurant_name",
        msgTmplMissing "r1" "key_message_points",
        msgTmplMissing "r1" "length"].isPrefixOf
        [msgKmpShort "r1" 0 1,
         msgTmplMissing "r1" "restaurant_name",
         msgTmplMissing "r1" "key_message_points",
         msgTmplMissing "r1" "length"]) = false := ⟨rfl, rfl, rfl⟩

/-- C3 amended: the issue list concatenates the restaurant, dish, bundle
and SEO segments in that traversal order, SEO last and only when
`seo_check` is set; within the restaurant and dish segments structural
and content-quality issues are interleaved entity by entity rather than
grouped structural-first. -/
theorem claim_c3 :
    ∀ (feed : Json) (cq seo : Bool) (is : List String) (p : Bool),
      validate_marketing_fields feed cq seo = .ok (is, p) →
        ∃ r d b s, checkRestaurants cq feed = .ok r ∧
          checkDishes cq feed = .ok d ∧ checkBundles feed = .ok b ∧
          is = r ++ d ++ b ++ s ∧
          (seo = true → seoBlock feed = .ok s) ∧
          (seo = false → s = []) := by
  intro feed cq seo is p h
  obtain ⟨r, d, b, s, hr, hd, hb, hs, hi, _⟩ :=
    validate_components feed cq seo is p h
  refine ⟨r, d, b, s, hr, hd, hb, hi, ?_, ?_⟩
  · intro h1
    rw [h1] at hs
    simpa using hs
  · intro h0
    rw [h0] at hs
    simp at hs
    exact hs

/-- C3 witness: the decomposition applied to the content-quality run on
`feedC3`. -/
theorem claim_c3_witness :
    ∃ r d b s, checkRestaurants true feedC3 = .ok r ∧
      checkDishes true feedC3 = .ok d ∧ checkBundles feedC3 = .ok b ∧
      ([msgKmpShort "r1" 0 1,
        msgTmplMissing "r1" "restaurant_name",
        msgTmplMissing "r1" "key_message_points",
        msgTmplMissing "r1" "length"] : List String) = r ++ d ++ b ++ s ∧
      (false = true → seoBlock feedC3 = .ok s) ∧
      (false = false → s = []) :=
  claim_c3 feedC3 true false
    [msgKmpShort "r1" 0 1,
     msgTmplMissing "r1" "restaurant_name",
     msgTmplMissing "r1" "key_message_points",
     msgTmplMissing "r1" "length"] false (by rfl)

/-- C4 counterexample: a `social_media_strategy.hashtags` entry
"LocalFood" (no leading "#") produces no issue when `content_quality`
is off, and none either when it is on but no `social_media_blurb` is
present — the hashtag-format rule is not structural and not independent
of those conditions. -/
theorem claim_c4_counterexample :
    validate_marketing_fields hashFeedNoBlurb false false = .ok ([], true)
    ∧ validate_marketing_fields hashFeedNoBlurb true false =
        .ok ([], true) := ⟨rfl, rfl⟩

/-- C4 amended: when `content_quality` is enabled and a
`social_media_blurb` is present, every hashtags entry that does not
start with "#" produces exactly one issue identifying that hashtag, in
entry order (and "#"-led entries produce none). -/
theorem claim_c4 : ∀ hs : List String, hs ≠ [] →
    validate_marketing_fields (hashFeed hs) true false =
      .ok (hashtagExpected "r1" hs, (hashtagExpected "r1" hs).isEmpty) := by
  intro hs hne
  cases hs with
  | nil => exact absurd rfl hne
  | cons h t =>
    have hreq : forIssues (socialFieldCheck "r1" (socialObj (h :: t)))
        ["platforms", "hashtags"] = .ok [] := rfl
    have htl : forIssues (hashtagCheck "r1")
        (Json.str h :: List.map Json.str t) =
        .ok (hashtagExpected "r1" (h :: t)) := hashtagLoop "r1" (h :: t)
    have hsoc : checkSocial true "r1"
        (.obj [("social_media_strategy", socialObj (h :: t))]) =
        .ok (hashtagExpected "r1" (h :: t)) := by
      simp only [socialObj, List.map_cons] at hreq
      have hblen :
          (pyWords "one two three four five six seven eight nine ten").length =
            10 := rfl
      simp [checkSocial, socialObj, pyMem, pySub, lookupField, pyIter,
        asStr, pyTruthy, hreq, htl, hblen]
    simp [validate_marketing_fields, checkRestaurants, checkRestaurant,
      checkKeyMessagePoints, checkPromptTemplate, checkLoyalty, checkOffers,
      checkCta, hashFeed, forIssuesIdx, pyMem, pySub, pyGet, pyIter, pyStr,
      lookupField, hsoc, checkDishes, checkBundles]

/-- C4 witness: the amended rule at the two-entry list
`["#a", "LocalFood"]`. -/
theorem claim_c4_witness :
    validate_marketing_fields (hashFeed ["#a", "LocalFood"]) true false =
      .ok (hashtagExpected "r1" ["#a", "LocalFood"],
        (hashtagExpected "r1" ["#a", "LocalFood"]).isEmpty) :=
  claim_c4 ["#a", "LocalFood"] (by decide)

/-- C5: with `content_quality` enabled, an 8-word `chef_highlight`
translation yields exactly one "too short" issue naming the field and
count, a 60-word one yields exactly one "too long" issue, and every
word count from 10 through 50 yields no issue at all. -/
theorem claim_c5 :
    validate_marketing_fields (chefFeed (chefText 8)) true false =
      .ok ([msgNarrShort10 "d1" "chef_highlight" 8], false)
    ∧ validate_marketing_fields (chefFeed (chefText 60)) true false =
        .ok ([msgNarrLong "d1" "chef_highlight" 60], false)
    ∧ ∀ k, k < 41 →
        validate_marketing_fields (chefFeed (chefText (10 + k))) true false =
          .ok ([], true) := by
  refine ⟨rfl, rfl, ?_⟩
  intro k hk
  interval_cases k <;> rfl

/-- C5 witness: the in-range case at 15 words. -/
theorem claim_c5_witness :
    validate_marketing_fields (chefFeed (chefText 15)) true false =
      .ok ([], true) :=
  claim_c5.2.2 5 (by norm_num)

/-- C6: for an offer carrying both timestamps, exactly one
"end_time before start_time" issue is emitted iff `start_time > end_time`
(equality included in the no-issue case), for every flag combination. -/
theorem claim_c6 : ∀ (s e : Int) (cq seo : Bool),
    validate_marketing_fields (offerFeed s e) cq seo =
      .ok (if e < s then ([msgOfferTime "summer"], false) else ([], true)) := by
  intro s e cq seo
  have hD : checkDishes cq (offerFeed s e) = .ok [] := by cases cq <;> rfl
  have hB : checkBundles (offerFeed s e) = .ok [] := rfl
  have hS : seoBlock (offerFeed s e) = .ok [] := rfl
  have hS2 : (if seo then seoBlock (offerFeed s e) else pure []) = .ok [] := by
    cases seo <;> simp [hS]
  by_cases h : e < s <;>
    simp [validate_marketing_fields, checkRestaurants_offerFeed, hD, hB,
      hS2, hS, h]

/-- C7: with `seo_check` enabled, the keyword "salmon" (from
`key_message_points`) with zero occurrences among six texts is reported
unused, with one or two occurrences it is reported low-use, with three
to six occurrences it is reported in neither; one occurrence among only
five texts is not reported; a dish-name keyword behaves the same way. -/
theorem claim_c7 :
    (∀ k, k < 7 → validate_marketing_fields (seoFeed k) false true =
      .ok (if k = 0 then ([msgSeoUnused ["salmon"]], false)
           else if k < 3 then ([msgSeoLow ["salmon"]], false)
           else ([], true)))
    ∧ validate_marketing_fields seoFeed5 false true = .ok ([], true)
    ∧ validate_marketing_fields seoFeedD false true =
        .ok ([msgSeoUnused ["sushi"]], false) := by
  refine ⟨?_, rfl, rfl⟩
  intro k hk
  interval_cases k <;> rfl

/-- C7 witness: four occurrences of the keyword yield neither issue. -/
theorem claim_c7_witness :
    validate_marketing_fields (seoFeed 4) false true = .ok ([], true) :=
  claim_c7.1 4 (by norm_num)

/-- C8 counterexample: with `content_quality` on, `feedC8` carries three
generic marketing texts (loyalty promo blurb, offer copy, social blurb)
lacking terminal punctuation yet its whole issue list is the single
punctuation issue of the dish narrative — the generic texts produce no
terminal-punctuation issue, contradicting the claim. -/
theorem claim_c8_counterexample :
    validate_marketing_fields feedC8 true false =
      .ok ([msgPunct "d1" "chef_highlight"], false) := rfl

/-- C8 amended: only dish narrative translations get the
terminal-punctuation check; loyalty promo blurbs and social blurbs
without terminal punctuation pass, and offer marketing copy is instead
flagged as not engaging when it contains no "!" or "?" anywhere — even
when it properly ends with ".". -/
theorem claim_c8 :
    validate_marketing_fields feedPromoNoPunct true false = .ok ([], true)
    ∧ validate_marketing_fields feedCopyNoBang true false =
        .ok ([msgCopyEngage "r1" 0], false)
    ∧ validate_marketing_fields feedBlurbNoPunct true false = .ok ([], true)
    ∧ validate_marketing_fields feedNarrBang true false = .ok ([], true)
    ∧ validate_marketing_fields feedNarrNoPunct true false =
        .ok ([msgPunct "d2" "chef_highlight"], false) :=
  ⟨rfl, rfl, rfl, rfl, rfl⟩

/-- C9: with `content_quality` enabled and a non-empty
`key_message_points` list, each entry of fewer than 3 words yields
exactly one "too short" issue, each of more than 10 words exactly one
"too long" issue, and entries of 3 to 10 words none — the whole run's
issue list is exactly that per-entry output, in entry order. -/
theorem claim_c9 : ∀ pts : List String, pts ≠ [] →
    validate_marketing_fields (kmpFeed pts) true false =
      .ok (kmpExpected "r1" 0 pts, (kmpExpected "r1" 0 pts).isEmpty) := by
  intro pts hne
  have hK : checkKeyMessagePoints true "r1" (.obj [("id", .str "r1"),
      ("key_message_points", .arr (pts.map .str))]) =
      .ok (kmpExpected "r1" 0 pts) := by
    cases pts with
    | nil => exact absurd rfl hne
    | cons p ps =>
      simp only [checkKeyMessagePoints, pyMem, pySub, lookupField, pyTruthy,
        pyIter]
      exact kmpLoop "r1" 0 (p :: ps)
  simp [validate_marketing_fields, checkRestaurants, checkRestaurant,
    checkPromptTemplate, kmpFeed, forIssuesIdx, pyMem, pySub, pyGet,
    pyIter, pyStr, lookupField, hK, checkDishes, checkBundles]

/-- C9 witness: the rule at a 1-word, a 3-word and an 11-word entry. -/
theorem claim_c9_witness :
    validate_marketing_fields
      (kmpFeed ["hi", "a b c", "w1 w2 w3 w4 w5 w6 w7 w8 w9 w10 w11"])
      true false =
      .ok (kmpExpected "r1" 0
          ["hi", "a b c", "w1 w2 w3 w4 w5 w6 w7 w8 w9 w10 w11"],
        (kmpExpected "r1" 0
          ["hi", "a b c", "w1 w2 w3 w4 w5 w6 w7 w8 w9 w10 w11"]).isEmpty) :=
  claim_c9 ["hi", "a b c", "w1 w2 w3 w4 w5 w6 w7 w8 w9 w10 w11"] (by decide)

/-- C10: every dish whose numeric `farm_distance` exceeds 500 draws the
verification warning issue even though the value is positive, and the
feed therefore fails validation, for every flag combination. -/
theorem claim_c10 : ∀ (d : Int) (cq seo : Bool), 500 < d →
    validate_marketing_fields (farmFeed d) cq seo =
      .ok ([msgFarmLarge "d1" (pyStr (.int d))], false) := by
  intro d cq seo h
  have hle : pyLeB (Json.int d) (Json.int 0) = .ok false := by
    simp [pyLeB, pyGtB, pyLtB, pyNumVal]
    exact_mod_cast lt_trans (by norm_num : (0 : Int) < 500) h
  have hgt : pyGtB (Json.int d) (Json.int 500) = .ok true := by
    simp [pyGtB, pyLtB, pyNumVal]
    exact_mod_cast h
  have hfarm : checkFarmDistance "d1" (.obj [("id", .str "d1"),
      ("farm_distance", .int d)]) =
      .ok [msgFarmLarge "d1" (pyStr (.int d))] := by
    simp [checkFarmDistance, pyMem, pySub, lookupField, hle, hgt]
  have hR : checkRestaurants cq (farmFeed d) = .ok [] := by cases cq <;> rfl
  have hB : checkBundles (farmFeed d) = .ok [] := rfl
  have hS : seoBlock (farmFeed d) = .ok [] := rfl
  have hS2 : (if seo then seoBlock (farmFeed d) else pure []) = .ok [] := by
    cases seo <;> simp [hS]
  have hD : checkDishes cq (farmFeed d) =
      .ok [msgFarmLarge "d1" (pyStr (.int d))] := by
    simp [checkDishes, checkDish, farmFeed, forIssues, pyMem, pySub, pyGet,
      pyIter, pyStr, lookupField, checkNarrativeField, narrativeFields,
      checkSupplierLocation, checkCertification, checkSustainability,
      checkUpgradeOptions, checkLtoDetails, checkFeedbackSummary, hfarm]
  simp [validate_marketing_fields, hR, hD, hB, hS2, hS]

/-- C10 witness: the warning at distance 501 with all checks enabled. -/
theorem claim_c10_witness :
    validate_marketing_fields (farmFeed 501) true true =
      .ok ([msgFarmLarge "d1" (pyStr (.int 501))], false) :=
  claim_c10 501 true true (by norm_num)
